import Mathlib

/-!
Verification development for the ollama-api-proxy repository.

The proxy translates Ollama-style HTTP requests into calls to remote LLM
providers.  The current revision of the server lives in `src/index.js`
(the streaming revision, routes at its lines 573-604); an earlier revision
of the same server (`handleChat` / `convertToOpenAI` / `convertToGemini` /
`requestBody` / `handleTags`) is kept alongside it and is embedded here
where a claim cites it.

The embedding below is shallow: JavaScript objects that matter to the
claims become a `JSValue` tree, the upstream AI SDK is an explicit function
parameter, and each handler is a pure function from its inputs to the
response it writes.  Every definition is translated from the JavaScript
source; line numbers in the doc comments refer to the concatenated
`src/index.js` (second revision) and to the earlier-revision file.
-/

namespace OllamaProxy

/-- A JavaScript value, as far as the proxy's data paths need one:
`undefined`, `null`, booleans, numbers (the claims never divide or
overflow, so integers suffice), strings, arrays and objects (ordered
field lists, unique keys as produced by the literals in the source). -/
inductive JSValue where
  | undefined : JSValue
  | null : JSValue
  | bool (b : Bool) : JSValue
  | num (n : Int) : JSValue
  | str (s : String) : JSValue
  | arr (elems : List JSValue) : JSValue
  | obj (fields : List (String × JSValue)) : JSValue

/-- JavaScript truthiness of a `JSValue` (`undefined`, `null`, `false`,
`0` and `""` are falsy; arrays and objects are always truthy). -/
def truthy : JSValue → Bool
  | .undefined => false
  | .null => false
  | .bool b => b
  | .num n => n != 0
  | .str s => s != ""
  | .arr _ => true
  | .obj _ => true

/-- JavaScript `a || b`: `a` when truthy, otherwise `b`. -/
def jsOr (a b : JSValue) : JSValue :=
  if truthy a then a else b

/-- Property read `v[key]` on a value known not to be `null`/`undefined`:
the field's value on an object that has the key, `undefined` otherwise. -/
def getField : JSValue → String → JSValue
  | .obj fields, key => (fields.lookup key).getD .undefined
  | _, _ => .undefined

/-- Whether an object value carries the given key. -/
def hasField (v : JSValue) (key : String) : Bool :=
  match v with
  | .obj fields => (fields.lookup key).isSome
  | _ => false

/-- The errors the proxy throws on its own (src/index.js lines 335, 338,
360, 411) plus the TypeError a property read on `null`/`undefined` would
raise. -/
inductive JSError where
  | unknownModel (name : String) : JSError
  | providerUnavailable (provider : String) : JSError
  | noValidMessages : JSError
  | typeError (key : String) : JSError
deriving DecidableEq

/-- The `error.message` string of each thrown error, as interpolated by
the source. -/
def JSError.message : JSError → String
  | .unknownModel name => "Model " ++ name ++ " not supported"
  | .providerUnavailable p => "Provider " ++ p ++ " not available"
  | .noValidMessages => "No valid messages found"
  | .typeError key => "TypeError reading " ++ key

/-- Property read `v[key]` in full: reading from `null` or `undefined`
throws a TypeError, any other base yields `getField`. -/
def getProp (v : JSValue) (key : String) : Except JSError JSValue :=
  match v with
  | .undefined => .error (.typeError key)
  | .null => .error (.typeError key)
  | _ => .ok (getField v key)

/-- One entry of the model table: `{ provider, model }`
(src/index.js lines 304-313). -/
structure ModelConfig where
  provider : String
  model : String
deriving DecidableEq

/-- The built-in model table of the current revision
(src/index.js lines 304-313). -/
def models : List (String × ModelConfig) :=
  [ ("gpt-4o-mini", { provider := "openai", model := "gpt-4o-mini" }),
    ("gpt-4.1-mini", { provider := "openai", model := "gpt-4.1-mini" }),
    ("gpt-4.1-nano", { provider := "openai", model := "gpt-4.1-nano" }),
    ("gemini-2.5-flash", { provider := "google", model := "gemini-2.5-flash" }),
    ("gemini-2.5-flash-lite-preview-06-17",
      { provider := "google", model := "gemini-2.5-flash-lite-preview-06-17" }),
    ("deepseek-r1", { provider := "openrouter", model := "deepseek/deepseek-r1-0528:free" }) ]

/-- `validateModel` (src/index.js lines 332-341): look the public name up
in the model table, throw `Model ... not supported` when absent, throw
`Provider ... not available` when the entry's provider has no configured
credential (`providers` is the set of provider names whose API key was
present at startup, lines 287-296), otherwise return the entry. -/
def validateModel (providers : List String) (name : String) :
    Except JSError ModelConfig :=
  match models.lookup name with
  | none => .error (.unknownModel name)
  | some config =>
      if providers.contains config.provider then .ok config
      else .error (.providerUnavailable config.provider)

/-- An inbound chat message as the normalizer sees it; the claims that use
this normalizer concern string contents. -/
structure Msg where
  role : String
  content : String
deriving DecidableEq

/-- JavaScript `String.prototype.trim`: strip leading and trailing
whitespace (modelled over the ASCII whitespace characters, which is what
the claims exercise). -/
def jsTrim (s : String) : String :=
  ⟨(((s.data.dropWhile Char.isWhitespace).reverse).dropWhile
      Char.isWhitespace).reverse⟩

/-- `prepareMessages` (src/index.js lines 344-349): drop messages whose
content is an empty string or trims to the empty string, map every other
role than `assistant` to `user`, and trim the content. -/
def prepareMessages (messages : List Msg) : List Msg :=
  (messages.filter (fun msg => msg.content != "" && jsTrim msg.content != "")).map
    (fun msg =>
      { role := if msg.role = "assistant" then "assistant" else "user",
        content := jsTrim msg.content })

/-- The argument object handed to the AI SDK `generateText` / `streamText`
calls: in the source a generation option that the caller did not supply is
read off the `options` object as `undefined` and forwarded as such. -/
structure GenerateTextArgs where
  model : String
  messages : List Msg
  temperature : JSValue
  maxTokens : JSValue
  topP : JSValue

/-- The `generateText` argument object of src/index.js lines 363-369:
`temperature: options.temperature`, `maxTokens: options.num_predict`,
`topP: options.top_p` — plain property reads, no fallback values. -/
def buildGenerateTextArgs (modelConfig : ModelConfig) (validMessages : List Msg)
    (options : JSValue) : GenerateTextArgs :=
  { model := modelConfig.model,
    messages := validMessages,
    temperature := getField options "temperature",
    maxTokens := getField options "num_predict",
    topP := getField options "top_p" }

/-- The `streamText` argument object of src/index.js lines 425-431; the
construction is identical to the `generateText` one. -/
def buildStreamTextArgs (modelConfig : ModelConfig) (validMessages : List Msg)
    (options : JSValue) : GenerateTextArgs :=
  { model := modelConfig.model,
    messages := validMessages,
    temperature := getField options "temperature",
    maxTokens := getField options "num_predict",
    topP := getField options "top_p" }

/-- What the upstream `generateText` call resolves to, as read by the
extraction code (src/index.js lines 371-393): its `text`, `reasoning` and
`messages` properties, each an arbitrary JavaScript value. -/
structure UpstreamResult where
  text : JSValue
  reasoning : JSValue
  messages : JSValue

/-- The structured response object built at src/index.js lines 396-400. -/
structure GenResult where
  text : JSValue
  reasoning : JSValue
  messages : JSValue

/-- `result.messages.filter(msg => msg.role === 'assistant')`
(src/index.js lines 381-382): the property read throws on a `null` or
`undefined` element, and `===` against the literal holds exactly for the
string `"assistant"`. -/
def filterAssistant : List JSValue → Except JSError (List JSValue)
  | [] => .ok []
  | m :: rest =>
      match getProp m "role" with
      | .error e => .error e
      | .ok r =>
          match filterAssistant rest with
          | .error e => .error e
          | .ok tail =>
              .ok (match r with
                   | .str s => if s = "assistant" then m :: tail else tail
                   | _ => tail)

/-- src/index.js lines 385-392: from the last assistant message take
`content || text || <previous text>` and, when truthy, its `reasoning`. -/
def extractFromAssistant (am : JSValue) (text0 reasoning0 : JSValue) :
    Except JSError (JSValue × JSValue) :=
  match getProp am "content" with
  | .error e => .error e
  | .ok c =>
      match getProp am "text" with
      | .error e => .error e
      | .ok t =>
          match getProp am "reasoning" with
          | .error e => .error e
          | .ok r =>
              .ok (jsOr c (jsOr t text0), if truthy r then r else reasoning0)

/-- The response-extraction half of `generateResponse`
(src/index.js lines 371-400): start from `result.text` and
`result.reasoning || null`; when `result.messages` is an array, keep it
and prefer the last assistant message's content; finally return
`text || ''` — note the `||` coerces only falsy values. -/
def extractResult (result : UpstreamResult) : Except JSError GenResult :=
  match result.messages with
  | .arr msgs =>
      match filterAssistant msgs with
      | .error e => .error e
      | .ok assistants =>
          match assistants.getLast? with
          | none =>
              .ok { text := jsOr result.text (.str ""),
                    reasoning := jsOr result.reasoning .null,
                    messages := .arr msgs }
          | some am =>
              match extractFromAssistant am result.text
                      (jsOr result.reasoning .null) with
              | .error e => .error e
              | .ok p =>
                  .ok { text := jsOr p.1 (.str ""),
                        reasoning := p.2,
                        messages := .arr msgs }
  | _ =>
      .ok { text := jsOr result.text (.str ""),
            reasoning := jsOr result.reasoning .null,
            messages := .null }

/-- `generateResponse` (src/index.js lines 353-401), with the AI SDK call
abstracted as the function `generateText`.  The second component is the
trace of upstream calls made: empty when the function throws before
reaching the SDK.  `No valid messages found` is thrown before the call. -/
def generateResponse (generateText : GenerateTextArgs → UpstreamResult)
    (modelConfig : ModelConfig) (messages : List Msg) (options : JSValue) :
    Except JSError GenResult × List GenerateTextArgs :=
  let validMessages := prepareMessages messages
  if validMessages.length = 0 then
    (.error .noValidMessages, [])
  else
    let args := buildGenerateTextArgs modelConfig validMessages options
    (extractResult (generateText args), [args])

/-- One intermediate NDJSON chunk of `streamResponse`
(src/index.js lines 438-455): `{ model: modelConfig.model, created_at,
done: false }`, then a `message` or `response` content field holding the
upstream delta, depending on the route's response key. -/
def intermediateChunk (now modelName responseKey delta : String) : JSValue :=
  .obj (("model", .str modelName) ::
        ("created_at", .str now) ::
        ("done", .bool false) ::
        (if responseKey = "message" then
          [("message", .obj [("role", .str "assistant"), ("content", .str delta)])]
         else if responseKey = "response" then
          [("response", .str delta)]
         else []))

/-- The final NDJSON chunk of `streamResponse`
(src/index.js lines 459-484): `done: true`, empty content for the route's
response key, and — only when the upstream result exposes a truthy
`reasoning` — a `reasoning` field (inside `message` for the chat route,
top-level otherwise).  No other field is written. -/
def finalChunk (now modelName responseKey : String) (upReasoning : JSValue) :
    JSValue :=
  .obj (("model", .str modelName) ::
        ("created_at", .str now) ::
        ("done", .bool true) ::
        (if responseKey = "message" then
          [("message", .obj (("role", .str "assistant") :: ("content", .str "") ::
            (if truthy upReasoning then [("reasoning", upReasoning)] else [])))]
         else
          (if responseKey = "response" then [("response", .str "")] else []) ++
          (if truthy upReasoning then [("reasoning", upReasoning)] else [])))

/-- The sequence of NDJSON lines written by the success path of
`streamResponse` (src/index.js lines 424-485): one intermediate chunk per
upstream text delta, in upstream order, then exactly one final chunk.
`deltas` is the finite upstream `result.textStream` and `upReasoning` the
`result.reasoning` value available at completion; the upstream-failure
path (lines 487-500) is not taken here. -/
def streamResponseLines (now : String) (modelConfig : ModelConfig)
    (deltas : List String) (upReasoning : JSValue) (responseKey : String) :
    List JSValue :=
  deltas.map (intermediateChunk now modelConfig.model responseKey) ++
    [finalChunk now modelConfig.model responseKey upReasoning]

/-- The non-streaming response object of `handleModelGenerationRequest`
(src/index.js lines 521-549): `{ model: <public name>, created_at,
done: true }`, then the content under the route's response key, then
`reasoning` when truthy (inside `message` for the chat route), then the
raw `messages` array when truthy. -/
def buildResponseData (now publicModel : String) (result : GenResult)
    (responseKey : String) : JSValue :=
  .obj (("model", .str publicModel) ::
        ("created_at", .str now) ::
        ("done", .bool true) ::
        ((if responseKey = "message" then
            [("message", .obj (("role", .str "assistant") ::
              ("content", result.text) ::
              (if truthy result.reasoning then [("reasoning", result.reasoning)]
               else [])))]
          else
            (if responseKey = "response" then [("response", result.text)]
             else []) ++
            (if truthy result.reasoning then [("reasoning", result.reasoning)]
             else [])) ++
         (if truthy result.messages then [("messages", result.messages)]
          else [])))

/-- The non-streaming body of `handleModelGenerationRequest` after the
request body has been read (src/index.js lines 508-558, with
`stream = false`): validate the model, generate, and reply 200 with the
response object; any thrown error is caught and answered as
`500 { error: error.message }` before headers were sent.  The second
component is the trace of upstream calls made. -/
def handleGenerationCore (generateText : GenerateTextArgs → UpstreamResult)
    (now : String) (providers : List String) (model : String)
    (messages : List Msg) (options : JSValue) (responseKey : String) :
    (Nat × JSValue) × List GenerateTextArgs :=
  match validateModel providers model with
  | .error e => ((500, .obj [("error", .str e.message)]), [])
  | .ok modelConfig =>
      match generateResponse generateText modelConfig messages options with
      | (.error e, calls) => ((500, .obj [("error", .str e.message)]), calls)
      | (.ok result, calls) =>
          ((200, buildResponseData now model result responseKey), calls)

/-- How a POST handler run can end, seen from the client: a JSON reply
with a status code, or no reply at all (the handler's awaited promise
never settles and the exception escapes the request handling). -/
inductive HandlerOutcome where
  | replied (status : Nat) (body : JSValue) : HandlerOutcome
  | hang : HandlerOutcome

/-- `getBody` of the current revision (src/index.js lines 316-320).  The
promise executor only attaches the `data`/`end` listeners and returns;
`JSON.parse` runs later, inside the `end` listener.  A parse exception
therefore neither rejects the promise — only a synchronous throw inside
the executor would — nor reaches the `try`/`catch` of the awaiting
handler: the promise never settles and the exception escapes as an
uncaught exception.  `none` models that unsettled state; an empty body
resolves to `{}`.  `parse` stands for the platform's `JSON.parse`. -/
def getBody (parse : String → Except String JSValue) (raw : String) :
    Option JSValue :=
  if raw = "" then some (.obj [])
  else
    match parse raw with
    | .ok v => some v
    | .error _ => none

/-- `requestBody` of the earlier revision (its lines 103-115): the same
read, but `JSON.parse` is wrapped in `try`/`catch` and a parse failure
rejects the promise with `Invalid JSON: <message>`. -/
def requestBody (parse : String → Except String JSValue) (raw : String) :
    Except String JSValue :=
  if raw = "" then .ok (.obj [])
  else
    match parse raw with
    | .ok v => .ok v
    | .error msg => .error ("Invalid JSON: " ++ msg)

/-- `handleModelGenerationRequest`, current revision, up to the body read
(src/index.js lines 504-506 with the catch at lines 553-558): everything
after `await getBody(request)` is the continuation `rest`.  When the
promise never settles the continuation is never reached and no response
is written; the trace of upstream calls is whatever `rest` performs. -/
def handlePost (parse : String → Except String JSValue)
    (rest : JSValue → HandlerOutcome × List GenerateTextArgs)
    (raw : String) : HandlerOutcome × List GenerateTextArgs :=
  match getBody parse raw with
  | none => (.hang, [])
  | some body => rest body

/-- The earlier revision's POST pipeline up to the body read (its lines
103-115, 215-217 and the router catch at its lines 314-325): a rejected
`requestBody` promise propagates out of the handler and the router
answers `500 { error: error.message }` before any further step. -/
def handlePostEarlier (parse : String → Except String JSValue)
    (rest : JSValue → HandlerOutcome × List GenerateTextArgs)
    (raw : String) : HandlerOutcome × List GenerateTextArgs :=
  match requestBody parse raw with
  | .error msg => (.replied 500 (.obj [("error", .str msg)]), [])
  | .ok body => rest body

/-- A Gemini `contents` entry of the earlier revision's `convertToGemini`
(its lines 172-203): a role and the `parts` list of text parts. -/
structure GeminiPart where
  text : String
deriving DecidableEq

/-- One turn of the Gemini request body. -/
structure GeminiContent where
  parts : List GeminiPart
  role : String
deriving DecidableEq

/-- The mutation `contents[0].parts[0].text =
message.content + "\n\n" + contents[0].parts[0].text` of the earlier
revision's `convertToGemini` (its line 189). -/
def prependSystemText (systemText : String) : List GeminiPart → List GeminiPart
  | [] => []
  | p :: ps => { text := systemText ++ "\n\n" ++ p.text } :: ps

/-- The loop body of `convertToGemini` (earlier revision, lines 177-192)
folded over the message list with the accumulated `contents`:
`user` appends a user turn, `assistant` appends a `model` turn, `system`
either merges into the first turn when that turn exists and is a user
turn, or `unshift`s a new leading user turn; any other role is skipped. -/
def convertToGeminiStep (contents : List GeminiContent) (message : Msg) :
    List GeminiContent :=
  if message.role = "user" then
    contents ++ [{ parts := [{ text := message.content }], role := "user" }]
  else if message.role = "assistant" then
    contents ++ [{ parts := [{ text := message.content }], role := "model" }]
  else if message.role = "system" then
    match contents with
    | [] => [{ parts := [{ text := message.content }], role := "user" }]
    | first :: others =>
        if first.role ≠ "user" then
          { parts := [{ text := message.content }], role := "user" } ::
            first :: others
        else
          { first with parts := prependSystemText message.content first.parts } ::
            others
  else contents

/-- The `contents` array built by the earlier revision's `convertToGemini`
(its lines 172-195). -/
def convertToGeminiContents (messages : List Msg) : List GeminiContent :=
  messages.foldl convertToGeminiStep []

/-- `name.replace(/[^a-zA-Z0-9]/g, '')` used for the digest in the tags
route (src/index.js line 584). -/
def sanitizeName (s : String) : String :=
  ⟨s.data.filter (fun c => c.isAlpha || c.isDigit)⟩

/-- One entry of the `GET /api/tags` model list
(src/index.js lines 579-585). -/
structure TagEntry where
  name : String
  model : String
  modified_at : String
  size : Nat
  digest : String
deriving DecidableEq

/-- The model list of the `GET /api/tags` route of the current revision
(src/index.js lines 576-587): the table entries are first filtered to
those whose provider is in the active provider set, then mapped to tag
entries. -/
def apiTags (now : String) (providers : List String) : List TagEntry :=
  (models.filter (fun entry => providers.contains entry.2.provider)).map
    (fun entry =>
      { name := entry.1,
        model := entry.1,
        modified_at := now,
        size := 1000000000,
        digest := "sha256:" ++ sanitizeName entry.1 })

/-- How startup ends: serving with some registry, or aborted. -/
inductive StartupResult where
  | started (registry : List (String × ModelConfig)) : StartupResult
  | fatal : StartupResult
deriving DecidableEq

/-- Modelled from the spec: the external model-table loading is not
present in the source under src/ — only the built-in table
(src/index.js lines 304-313), the README section describing a
working-directory `models.json` override, and the Dockerfile copying
`models.json` are.  Per the spec's loading policy: when the file exists
its parse result is the registry and a parse failure aborts startup;
when no file exists the built-in table is used; the two tables are never
merged.  The argument is the file state: `none` when no file exists,
`some none` when it exists but fails to parse, `some (some table)` when
it parses. -/
def loadRegistry :
    Option (Option (List (String × ModelConfig))) → StartupResult
  | none => .started models
  | some none => .fatal
  | some (some table) => .started table

/-- A missing key reads as `undefined`. -/
theorem getField_eq_undef_of_hasField_eq_false (v : JSValue) (key : String)
    (h : hasField v key = false) : getField v key = .undefined := by
  cases v <;> simp only [getField]
  next fields =>
    cases hl : fields.lookup key with
    | none => rfl
    | some w =>
      exfalso
      rw [show hasField (.obj fields) key = (fields.lookup key).isSome from rfl,
        hl] at h
      simp at h

/-- `x || ''` is either a truthy value or the empty string. -/
theorem jsOr_empty_cases (v : JSValue) :
    truthy (jsOr v (.str "")) = true ∨ jsOr v (.str "") = .str "" := by
  unfold jsOr
  by_cases hv : truthy v = true
  · left; simp [hv]
  · right; simp [hv]

/-- Claim C1 (counterexample): with upstream deltas `"Hel"`, `"lo"`, `"!"`
and a request whose `context` array is `[1, 2]`, the final NDJSON line of
the generate route does not satisfy the claimed property of carrying
`done:true` together with the echoed `context`: the written object has no
`context` field at all. -/
theorem streaming_final_line_does_not_echo_context :
    ¬ (getField ((streamResponseLines "2025-01-01T00:00:00.000Z"
            ⟨"openrouter", "deepseek/deepseek-r1-0528:free"⟩
            ["Hel", "lo", "!"] .undefined "response").getD 3 .undefined) "done" =
          .bool true ∧
       getField ((streamResponseLines "2025-01-01T00:00:00.000Z"
            ⟨"openrouter", "deepseek/deepseek-r1-0528:free"⟩
            ["Hel", "lo", "!"] .undefined "response").getD 3 .undefined) "context" =
          .arr [.num 1, .num 2]) := by
  intro h
  have hc := h.2
  have : getField ((streamResponseLines "2025-01-01T00:00:00.000Z"
      ⟨"openrouter", "deepseek/deepseek-r1-0528:free"⟩
      ["Hel", "lo", "!"] .undefined "response").getD 3 .undefined) "context" =
      JSValue.undefined := rfl
  rw [this] at hc
  exact JSValue.noConfusion hc

/-- Claim C1 (amended): for every streaming request whose upstream yields
exactly the deltas `"Hel"`, `"lo"`, `"!"`, the proxy writes exactly 4
NDJSON lines — the first 3 with `done:false` carrying the deltas in order
(concatenating to `"Hello!"`) and the final one with `done:true` and empty
content — and no line carries a `context` field: the request's context
array is not echoed. -/
theorem streaming_three_deltas_wire_output (now modelName provider : String) :
    (streamResponseLines now ⟨provider, modelName⟩ ["Hel", "lo", "!"] .undefined
        "response").length = 4 ∧
    (streamResponseLines now ⟨provider, modelName⟩ ["Hel", "lo", "!"] .undefined
        "response").map (fun c => getField c "done") =
      [.bool false, .bool false, .bool false, .bool true] ∧
    (streamResponseLines now ⟨provider, modelName⟩ ["Hel", "lo", "!"] .undefined
        "response").map (fun c => getField c "response") =
      [.str "Hel", .str "lo", .str "!", .str ""] ∧
    ("Hel" ++ "lo" ++ "!" : String) = "Hello!" ∧
    (streamResponseLines now ⟨provider, modelName⟩ ["Hel", "lo", "!"] .undefined
        "response").map (fun c => hasField c "context") =
      [false, false, false, false] :=
  ⟨rfl, rfl, rfl, rfl, rfl⟩

/-- Claim C2: when every entry of the messages array has empty or
whitespace-only string content, normalization yields the empty list and
`generateResponse` throws `No valid messages found` without making any
upstream call, whatever the upstream would have answered. -/
theorem empty_messages_short_circuit (msgs : List Msg)
    (h : ∀ m ∈ msgs, jsTrim m.content = "") :
    prepareMessages msgs = [] ∧
    ∀ (generateText : GenerateTextArgs → UpstreamResult) (config : ModelConfig)
      (options : JSValue),
      generateResponse generateText config msgs options =
        (.error .noValidMessages, []) := by
  have hp : prepareMessages msgs = [] := by
    unfold prepareMessages
    have hf : msgs.filter
        (fun msg => msg.content != "" && jsTrim msg.content != "") = [] := by
      rw [List.filter_eq_nil_iff]
      intro a ha
      simp [h a ha]
    rw [hf]
    rfl
  refine ⟨hp, fun generateText config options => ?_⟩
  unfold generateResponse
  rw [hp]
  rfl

/-- Claim C2 witness at a concrete all-whitespace messages array. -/
theorem empty_messages_short_circuit_witness :
    prepareMessages [⟨"user", " "⟩, ⟨"assistant", ""⟩] = [] ∧
    ∀ (generateText : GenerateTextArgs → UpstreamResult) (config : ModelConfig)
      (options : JSValue),
      generateResponse generateText config [⟨"user", " "⟩, ⟨"assistant", ""⟩]
          options = (.error .noValidMessages, []) :=
  empty_messages_short_circuit [⟨"user", " "⟩, ⟨"assistant", ""⟩] (by decide)

/-- Claim C3: registry resolution fails with the unknown-model error when
the name is not a key of the model table and with the
provider-unavailable error when the entry's provider has no configured
credential, and otherwise returns the entry; in both failure cases the
request handler replies 500 with the error message and the trace of
upstream calls is empty. -/
theorem model_resolution_errors (providers : List String) (name : String)
    (generateText : GenerateTextArgs → UpstreamResult) (now : String)
    (msgs : List Msg) (options : JSValue) (responseKey : String) :
    (models.lookup name = none →
      validateModel providers name = .error (.unknownModel name) ∧
      handleGenerationCore generateText now providers name msgs options
          responseKey =
        ((500, .obj [("error",
            .str ("Model " ++ name ++ " not supported"))]), [])) ∧
    (∀ config, models.lookup name = some config →
      providers.contains config.provider = false →
      validateModel providers name =
          .error (.providerUnavailable config.provider) ∧
      handleGenerationCore generateText now providers name msgs options
          responseKey =
        ((500, .obj [("error",
            .str ("Provider " ++ config.provider ++ " not available"))]), [])) ∧
    (∀ config, models.lookup name = some config →
      providers.contains config.provider = true →
      validateModel providers name = .ok config) := by
  refine ⟨fun hnone => ?_, fun config hsome hnp => ?_, fun config hsome hp => ?_⟩
  · have hv : validateModel providers name = .error (.unknownModel name) := by
      unfold validateModel
      rw [hnone]
    refine ⟨hv, ?_⟩
    unfold handleGenerationCore
    rw [hv]
    rfl
  · have hv : validateModel providers name =
        .error (.providerUnavailable config.provider) := by
      unfold validateModel
      rw [hsome]
      show (if providers.contains config.provider = true then Except.ok config
            else Except.error (JSError.providerUnavailable config.provider)) = _
      rw [hnp]
      rfl
    refine ⟨hv, ?_⟩
    unfold handleGenerationCore
    rw [hv]
    rfl
  · unfold validateModel
    rw [hsome]
    show (if providers.contains config.provider = true then Except.ok config
          else Except.error (JSError.providerUnavailable config.provider)) =
        Except.ok config
    rw [hp]
    rfl

/-- Claim C3 witness: an unknown name, a known name whose provider has no
credential, and a resolvable name. -/
theorem model_resolution_errors_witness :
    validateModel ["openai"] "llama3" = .error (.unknownModel "llama3") ∧
    validateModel ["openai"] "deepseek-r1" =
      .error (.providerUnavailable "openrouter") ∧
    validateModel ["openrouter"] "deepseek-r1" =
      .ok ⟨"openrouter", "deepseek/deepseek-r1-0528:free"⟩ :=
  ⟨((model_resolution_errors ["openai"] "llama3"
      (fun _ => ⟨.undefined, .undefined, .undefined⟩) "t" [] .undefined "message").1
      (by decide)).1,
   ((model_resolution_errors ["openai"] "deepseek-r1"
      (fun _ => ⟨.undefined, .undefined, .undefined⟩) "t" [] .undefined "message").2.1
      ⟨"openrouter", "deepseek/deepseek-r1-0528:free"⟩ (by decide) (by decide)).1,
   (model_resolution_errors ["openrouter"] "deepseek-r1"
      (fun _ => ⟨.undefined, .undefined, .undefined⟩) "t" [] .undefined "message").2.2
      ⟨"openrouter", "deepseek/deepseek-r1-0528:free"⟩ (by decide) (by decide)⟩

/-- Claim C4: each generation option is forwarded to the provider call
exactly as the caller supplied it — both in `generateText` and in
`streamText` — and when the caller did not supply it, the call receives
`undefined` for it, not a locally hardcoded fallback value. -/
theorem options_pass_through (config : ModelConfig) (msgs : List Msg)
    (options : JSValue) :
    ((buildGenerateTextArgs config msgs options).temperature =
        getField options "temperature" ∧
      (buildGenerateTextArgs config msgs options).maxTokens =
        getField options "num_predict" ∧
      (buildGenerateTextArgs config msgs options).topP =
        getField options "top_p") ∧
    ((buildStreamTextArgs config msgs options).temperature =
        getField options "temperature" ∧
      (buildStreamTextArgs config msgs options).maxTokens =
        getField options "num_predict" ∧
      (buildStreamTextArgs config msgs options).topP =
        getField options "top_p") ∧
    (hasField options "temperature" = false →
      (buildGenerateTextArgs config msgs options).temperature = .undefined ∧
      (buildStreamTextArgs config msgs options).temperature = .undefined) ∧
    (hasField options "num_predict" = false →
      (buildGenerateTextArgs config msgs options).maxTokens = .undefined ∧
      (buildStreamTextArgs config msgs options).maxTokens = .undefined) ∧
    (hasField options "top_p" = false →
      (buildGenerateTextArgs config msgs options).topP = .undefined ∧
      (buildStreamTextArgs config msgs options).topP = .undefined) := by
  refine ⟨⟨rfl, rfl, rfl⟩, ⟨rfl, rfl, rfl⟩, fun h => ?_, fun h => ?_, fun h => ?_⟩
  all_goals
    exact ⟨getField_eq_undef_of_hasField_eq_false options _ h,
      getField_eq_undef_of_hasField_eq_false options _ h⟩

/-- Claim C4 witness: a request that supplied no options at all receives
`undefined` for every option in both provider calls. -/
theorem options_pass_through_witness :
    (buildGenerateTextArgs ⟨"openai", "gpt-4o-mini"⟩ [] (.obj [])).temperature =
        .undefined ∧
      (buildStreamTextArgs ⟨"openai", "gpt-4o-mini"⟩ [] (.obj [])).temperature =
        .undefined :=
  (options_pass_through ⟨"openai", "gpt-4o-mini"⟩ [] (.obj [])).2.2.1 (by decide)

/-- Claim C5 (counterexample): a `system` message followed by a `user`
message `"hi"` is not merged into one user turn — when the system message
is processed the contents list is still empty, so a separate leading user
turn is synthesized and the conversion yields two user turns. -/
theorem gemini_system_then_user_not_merged :
    convertToGeminiContents [⟨"system", "S"⟩, ⟨"user", "hi"⟩] =
      [⟨[⟨"S"⟩], "user"⟩, ⟨[⟨"hi"⟩], "user"⟩] ∧
    ¬ convertToGeminiContents [⟨"system", "S"⟩, ⟨"user", "hi"⟩] =
        [⟨[⟨"S\n\nhi"⟩], "user"⟩] := by
  exact ⟨by decide, by decide⟩

/-- Claim C5 (amended): the Gemini conversion merges a `system` message
into the first turn only when that turn already exists and is a user turn
— so a user message followed by a system message becomes one user turn
with text `system ++ "\n\n" ++ user` — while a system message that
arrives before any user turn synthesizes its own leading user turn,
leaving the following user message as a second turn; assistant messages
are remapped to role `model`. -/
theorem gemini_conversion_roles (s u a : String) :
    convertToGeminiContents [⟨"user", u⟩, ⟨"system", s⟩] =
      [⟨[⟨s ++ "\n\n" ++ u⟩], "user"⟩] ∧
    convertToGeminiContents [⟨"system", s⟩, ⟨"user", u⟩] =
      [⟨[⟨s⟩], "user"⟩, ⟨[⟨u⟩], "user"⟩] ∧
    convertToGeminiContents [⟨"assistant", a⟩] = [⟨[⟨a⟩], "model"⟩] :=
  ⟨rfl, rfl, rfl⟩

/-- Claim C6 (counterexample): an upstream result whose `text` is a truthy
non-string — here the object `{a: 1}` — is propagated unchanged by the
extraction: the returned text is that object, not the empty string, so
the text field is not always a string. -/
theorem nonstring_text_propagates :
    extractResult ⟨.obj [("a", .num 1)], .undefined, .undefined⟩ =
      .ok ⟨.obj [("a", .num 1)], .null, .null⟩ ∧
    (∀ s : String, ¬ JSValue.obj [("a", .num 1)] = .str s) :=
  ⟨rfl, fun _ h => JSValue.noConfusion h⟩

/-- Claim C6 (amended): the extraction never produces an `undefined` or
`null` text — the final `text || ''` coerces every falsy extracted value
to the empty string — though a truthy non-string value passes through. -/
theorem extracted_text_never_nullish (r : UpstreamResult) (g : GenResult)
    (h : extractResult r = .ok g) :
    truthy g.text = true ∨ g.text = .str "" := by
  unfold extractResult at h
  split at h
  next msgs =>
    split at h
    next => exact Except.noConfusion h
    next assistants =>
      split at h
      next =>
        injection h with h
        subst h
        exact jsOr_empty_cases _
      next am =>
        split at h
        next => exact Except.noConfusion h
        next p =>
          injection h with h
          subst h
          exact jsOr_empty_cases _
  next =>
    injection h with h
    subst h
    exact jsOr_empty_cases _

/-- Claim C6 witness: a degenerate upstream result with `undefined`
everywhere yields the empty-string text. -/
theorem extracted_text_never_nullish_witness :
    truthy (GenResult.text ⟨.str "", .null, .null⟩) = true ∨
      GenResult.text ⟨.str "", .null, .null⟩ = .str "" :=
  extracted_text_never_nullish ⟨.undefined, .undefined, .undefined⟩ ⟨.str "", .null, .null⟩
    rfl

/-- Claim C7: the `GET /api/tags` model list contains a name exactly when
the model table has an entry under that name whose provider has a
configured credential; a table entry whose provider has none never
appears. -/
theorem tags_list_only_configured_providers (now : String)
    (providers : List String) (name : String) :
    name ∈ (apiTags now providers).map TagEntry.name ↔
      ∃ config, (name, config) ∈ models ∧
        providers.contains config.provider = true := by
  unfold apiTags
  simp only [List.map_map, List.mem_map, List.mem_filter, Function.comp]
  constructor
  · rintro ⟨⟨n, c⟩, ⟨hm, hp⟩, he⟩
    exact ⟨c, by simpa using he ▸ hm, hp⟩
  · rintro ⟨c, hm, hp⟩
    exact ⟨(name, c), ⟨hm, hp⟩, rfl⟩

/-- Claim C7 witness: with only an OpenAI credential configured, the tags
list carries `gpt-4o-mini` and not the OpenRouter-backed `deepseek-r1`. -/
theorem tags_list_only_configured_providers_witness :
    "gpt-4o-mini" ∈ (apiTags "t" ["openai"]).map TagEntry.name ∧
    ¬ "deepseek-r1" ∈ (apiTags "t" ["openai"]).map TagEntry.name :=
  ⟨(tags_list_only_configured_providers "t" ["openai"] "gpt-4o-mini").mpr
      ⟨⟨"openai", "gpt-4o-mini"⟩, by decide, by decide⟩,
    by decide⟩

/-- Claim C8: on a POST body that is not valid JSON the current
revision's handler does not reply at all — `JSON.parse` throws inside the
`end` listener, the `getBody` promise never settles, and the route's
`try`/`catch` never runs — so no `500 {error}` reply is produced and no
upstream call is made; the earlier revision's `requestBody` pipeline is
the one that replies `500` with the `Invalid JSON:` message before any
further step. -/
theorem malformed_json_body_hangs :
    (∀ rest, handlePost (fun _ => .error "Unexpected end of JSON input")
        rest "\x7b" = (.hang, [])) ∧
    (∀ rest,
      handlePostEarlier (fun _ => .error "Unexpected end of JSON input")
          rest "\x7b" =
        (.replied 500 (.obj [("error",
            .str "Invalid JSON: Unexpected end of JSON input")]), [])) :=
  ⟨fun _ => rfl, fun _ => rfl⟩

/-- Claim C9: startup uses the external model-table file as the registry
when it exists and parses, aborts on a parse failure, and falls back to
the built-in table only when no file exists; the two tables are never
merged. -/
theorem registry_loading_policy :
    loadRegistry none = .started models ∧
    loadRegistry (some none) = .fatal ∧
    ∀ table, loadRegistry (some (some table)) = .started table :=
  ⟨rfl, rfl, fun _ => rfl⟩

/-- Claim C10: every NDJSON chunk of a stream — intermediate and final —
reports the registry entry's provider-side model id in its `model` field,
while the non-streaming response object reports the caller-supplied
public name; in particular the public name `deepseek-r1` maps to the
upstream id `deepseek/deepseek-r1-0528:free`, which is what its stream
chunks carry. -/
theorem stream_reports_upstream_model_id (now : String) (config : ModelConfig)
    (deltas : List String) (upReasoning : JSValue) (responseKey : String)
    (publicName : String) (result : GenResult) :
    (∀ c ∈ streamResponseLines now config deltas upReasoning responseKey,
      getField c "model" = .str config.model) ∧
    getField (buildResponseData now publicName result responseKey) "model" =
      .str publicName ∧
    models.lookup "deepseek-r1" =
      some ⟨"openrouter", "deepseek/deepseek-r1-0528:free"⟩ := by
  refine ⟨?_, rfl, by decide⟩
  intro c hc
  rw [streamResponseLines, List.mem_append] at hc
  rcases hc with hc | hc
  · obtain ⟨d, _, rfl⟩ := List.mem_map.mp hc
    rfl
  · rw [List.mem_singleton] at hc
    subst hc
    rfl

/-- Claim C10 witness: the first chunk of a `deepseek-r1` stream carries
the upstream model id. -/
theorem stream_reports_upstream_model_id_witness :
    getField (intermediateChunk "t" "deepseek/deepseek-r1-0528:free"
        "response" "Hel") "model" = .str "deepseek/deepseek-r1-0528:free" :=
  (stream_reports_upstream_model_id "t"
      ⟨"openrouter", "deepseek/deepseek-r1-0528:free"⟩ ["Hel"] .undefined
      "response" "deepseek-r1" ⟨.str "", .null, .null⟩).1
    (intermediateChunk "t" "deepseek/deepseek-r1-0528:free" "response" "Hel")
    (by rw [streamResponseLines, List.mem_append]
        exact Or.inl (List.mem_map.mpr ⟨"Hel", List.mem_singleton.mpr rfl, rfl⟩))

end OllamaProxy
